import Mathlib

/-!
# Antigravity-Manager: verification of the credential pool core

Shallow embedding of the repository's four source files:

* `src-tauri/src/proxy/tests/ultra_priority_tests.rs` — the selection
  comparator and capability filter exercised by the test suite;
* `src-tauri/src/utils/crypto.rs` — the versioned credential cipher
  (`encrypt_string` / `decrypt_string` / serde hooks);
* `src-tauri/src/modules/migration.rs` — the legacy pool import and the
  refresh-token extraction over the two key-value format generations;
* `src-tauri/src/constants.rs` — not involved in any claim.

Modelling conventions: Rust strings become Lean `String` (sequences of
chars); byte buffers become `List Nat` with values `< 256`; `i32`/`i64`
become `Int`; the `f32` health score becomes `ℚ` (the comparator only
compares it, and `partial_cmp` is total away from NaN); `HashMap` becomes
an association list; fallible Rust functions return `Except String` or
`Option`.  External collaborators (the AES-GCM AEAD, serde_json, sqlite,
the filesystem, the OAuth client) are modelled as explicit parameters or
interface structures, as the spec's §1 declares them out of scope.
-/

/-! ## String and list helpers (models of Rust std string operations) -/

/-- Model of Rust `str::starts_with`: char-list prefix test. -/
def strStartsWith (s pat : String) : Bool :=
  pat.data.isPrefixOf s.data

/-- Model of Rust byte-slicing `&s[n..]` for an ASCII cut point. -/
def strDropChars (s : String) (n : Nat) : String :=
  ⟨s.data.drop n⟩

/-- Substring test on char lists: does `needle` occur inside `hay`? -/
def listContainsSub (needle : List Char) : List Char → Bool
  | [] => needle.isEmpty
  | c :: t => needle.isPrefixOf (c :: t) || listContainsSub needle t

/-- Model of Rust `str::contains` (substring test). -/
def strContainsSub (s pat : String) : Bool :=
  listContainsSub pat.data s.data

/-- Model of Rust `str::to_lowercase` (per-char lowering; the tier labels
compared in the source are ASCII). -/
def strToLower (s : String) : String :=
  ⟨s.data.map Char.toLower⟩

/-- Three-way comparison from a linear order, the model of Rust
`Ord::cmp` / `PartialOrd::partial_cmp` on totally ordered data. -/
def cmpOrd {β : Type} [LinearOrder β] (a b : β) : Ordering :=
  if a < b then Ordering.lt else if b < a then Ordering.gt else Ordering.eq

/-- Lexicographic three-way comparison of char lists (model of Rust
`Ord` on `String`). -/
def cmpCharList : List Char → List Char → Ordering
  | [], [] => Ordering.eq
  | [], _ :: _ => Ordering.lt
  | _ :: _, [] => Ordering.gt
  | x :: xs, y :: ys =>
    if x = y then cmpCharList xs ys
    else if x.toNat < y.toNat then Ordering.lt else Ordering.gt

/-- Model of Rust `Ord::cmp` on `String`. -/
def cmpStr (a b : String) : Ordering :=
  cmpCharList a.data b.data

/-! ## Base64 (model of the `base64` crate's `STANDARD` engine)

Encoding turns each 3-byte group into 4 alphabet chars, padding a final
1- or 2-byte group with `=`; decoding inverts this and rejects anything
non-canonical (wrong length, bad char, nonzero trailing bits), matching
the crate's strict `STANDARD` configuration. -/

def b64Alphabet : List Char :=
  "ABCDEFGHIJKLMNOPQRSTUVWXYZabcdefghijklmnopqrstuvwxyz0123456789+/".data

def encSextet (n : Nat) : Char := b64Alphabet.getD n 'A'

def decSextet (c : Char) : Option Nat := b64Alphabet.findIdx? (fun x => x = c)

def b64EncodeChars : List Nat → List Char
  | [] => []
  | [b1] => [encSextet (b1 / 4), encSextet (b1 % 4 * 16), '=', '=']
  | [b1, b2] =>
    [encSextet (b1 / 4), encSextet (b1 % 4 * 16 + b2 / 16), encSextet (b2 % 16 * 4), '=']
  | b1 :: b2 :: b3 :: rest =>
    encSextet (b1 / 4) :: encSextet (b1 % 4 * 16 + b2 / 16) ::
      encSextet (b2 % 16 * 4 + b3 / 64) :: encSextet (b3 % 64) :: b64EncodeChars rest

def b64DecodeChars : List Char → Option (List Nat)
  | [] => some []
  | c1 :: c2 :: c3 :: c4 :: rest =>
    match decSextet c1, decSextet c2 with
    | some s1, some s2 =>
      if c3 = '=' then
        if c4 = '=' ∧ rest = [] ∧ s2 % 16 = 0 then some [s1 * 4 + s2 / 16] else none
      else
        match decSextet c3 with
        | some s3 =>
          if c4 = '=' then
            if rest = [] ∧ s3 % 4 = 0 then some [s1 * 4 + s2 / 16, s2 % 16 * 16 + s3 / 4]
            else none
          else
            match decSextet c4 with
            | some s4 =>
              (b64DecodeChars rest).map
                (fun bs => (s1 * 4 + s2 / 16) :: (s2 % 16 * 16 + s3 / 4) :: (s3 % 4 * 64 + s4) :: bs)
            | none => none
        | none => none
    | _, _ => none
  | _ => none

/-! ## UTF-8 decoding (model of Rust `String::from_utf8`) -/

def utf8DecodeAux : List Nat → Option (List Char)
  | [] => some []
  | b1 :: rest =>
    if b1 < 128 then (utf8DecodeAux rest).map (fun l => Char.ofNat b1 :: l)
    else
      match rest with
      | [] => none
      | b2 :: rest2 =>
        if b1 < 194 then none
        else if b1 < 224 then
          if 128 ≤ b2 ∧ b2 < 192 then
            (utf8DecodeAux rest2).map (fun l => Char.ofNat ((b1 - 192) * 64 + (b2 - 128)) :: l)
          else none
        else
          match rest2 with
          | [] => none
          | b3 :: rest3 =>
            if b1 < 240 then
              if (128 ≤ b2 ∧ b2 < 192) ∧ (128 ≤ b3 ∧ b3 < 192) then
                if 2048 ≤ (b1 - 224) * 4096 + (b2 - 128) * 64 + (b3 - 128) ∧
                    ((b1 - 224) * 4096 + (b2 - 128) * 64 + (b3 - 128) < 55296 ∨
                      57344 ≤ (b1 - 224) * 4096 + (b2 - 128) * 64 + (b3 - 128)) then
                  (utf8DecodeAux rest3).map
                    (fun l => Char.ofNat ((b1 - 224) * 4096 + (b2 - 128) * 64 + (b3 - 128)) :: l)
                else none
              else none
            else
              match rest3 with
              | [] => none
              | b4 :: rest4 =>
                if b1 < 245 then
                  if (128 ≤ b2 ∧ b2 < 192) ∧ (128 ≤ b3 ∧ b3 < 192) ∧ (128 ≤ b4 ∧ b4 < 192) then
                    if 65536 ≤ (b1 - 240) * 262144 + (b2 - 128) * 4096 + (b3 - 128) * 64 + (b4 - 128) ∧
                        (b1 - 240) * 262144 + (b2 - 128) * 4096 + (b3 - 128) * 64 + (b4 - 128) < 1114112 then
                      (utf8DecodeAux rest4).map
                        (fun l =>
                          Char.ofNat
                            ((b1 - 240) * 262144 + (b2 - 128) * 4096 + (b3 - 128) * 64 + (b4 - 128)) :: l)
                    else none
                  else none
                else none

/-- Model of Rust `String::from_utf8` over a byte list. -/
def utf8Decode (bytes : List Nat) : Option String :=
  (utf8DecodeAux bytes).map (fun l => ⟨l⟩)

/-! ## Binary Field Extractor

`utils::protobuf::find_field` is called by `modules/migration.rs` but its
own file is not among the provided sources. -/

/-- Varint decoder: little-endian base-128 groups, high bit = continuation.
Returns the value and the remaining bytes, or `none` when truncated. -/
def readVarint : List Nat → Option (Nat × List Nat)
  | [] => none
  | b :: rest =>
    if b < 128 then some (b, rest)
    else
      match readVarint rest with
      | some (v, r) => some (b % 128 + v * 128, r)
      | none => none

/-- Modelled from the spec: `utils::protobuf::find_field`, whose source file
is not under the provided sources (only its caller `modules/migration.rs`
is).  Spec §4.1: repeatedly decode a varint tag, split it into field number
(`tag >> 3`) and wire type (`tag & 0b111`); wire type 0 skips a varint,
wire type 2 reads a varint length and slices that many payload bytes
(returned immediately on the first field-number match), wire types 1/5 skip
8/4 bytes; end of buffer returns "not found"; truncated varints and lengths
exceeding the remaining buffer are decode errors.  The fuel argument only
bounds the loop (each iteration consumes at least one byte, so
`length + 1` fuel never runs out). -/
def findFieldAux (target : Nat) : Nat → List Nat → Except String (Option (List Nat))
  | _, [] => .ok none
  | 0, _ :: _ => .error "fuel exhausted"
  | fuel + 1, b :: rest0 =>
    match readVarint (b :: rest0) with
    | none => .error "truncated varint tag"
    | some (tag, rest) =>
      if tag % 8 = 0 then
        match readVarint rest with
        | none => .error "truncated varint value"
        | some (_, r) => findFieldAux target fuel r
      else if tag % 8 = 2 then
        match readVarint rest with
        | none => .error "truncated length"
        | some (len, r) =>
          if len ≤ r.length then
            if tag / 8 = target then .ok (some (r.take len))
            else findFieldAux target fuel (r.drop len)
          else .error "length exceeds remaining buffer"
      else if tag % 8 = 1 then
        if 8 ≤ rest.length then findFieldAux target fuel (rest.drop 8)
        else .error "truncated fixed64"
      else if tag % 8 = 5 then
        if 4 ≤ rest.length then findFieldAux target fuel (rest.drop 4)
        else .error "truncated fixed32"
      else .error "unsupported wire type"

/-- Modelled from the spec: see `findFieldAux`. -/
def find_field (buf : List Nat) (target : Nat) : Except String (Option (List Nat)) :=
  findFieldAux target (buf.length + 1) buf

/-! ## Credential Cipher (`utils/crypto.rs`)

The AES-256-GCM AEAD (crate `aes_gcm`) and the UTF-8 re-decoding of the
decrypted bytes are external to this repository; they are modelled by the
interface `CipherIface`: a deterministic byte-producing `enc` (the source
uses one process-wide key and the fixed nonce `b"antigravsalt"`, so
encryption is a function of the plaintext) and a partial inverse `dec`,
with the AEAD round-trip guarantee as a field.  `enc` is total because
`aes_gcm`'s in-memory `encrypt` cannot fail for these inputs (the source
still propagates its `Result`, which the contract in spec §4.2 states is
always `Ok`). -/

structure CipherIface where
  enc : String → List Nat
  dec : List Nat → Option String
  enc_byte_lt : ∀ s : String, ∀ b ∈ enc s, b < 256
  dec_enc : ∀ s : String, dec (enc s) = some s

/-- Marker constant `ENCRYPTED_PREFIX` from `utils/crypto.rs`. -/
def encMarker : String := "ag_enc_"

/-- Embedding of `crypto::encrypt_string`: AEAD-encrypt, base64, prepend the marker. -/
def encrypt_string (c : CipherIface) (password : String) : Except String String :=
  .ok ⟨encMarker.data ++ b64EncodeChars (c.enc password)⟩

/-- Embedding of `crypto::decrypt_string_internal`: base64-decode then AEAD-decrypt.
The source's distinct base64 / AEAD / UTF-8 error strings are kept as two
cases (`dec` folds the AEAD and UTF-8 failures of the external cipher). -/
def decrypt_string_internal (c : CipherIface) (encrypted_base64 : String) :
    Except String String :=
  match b64DecodeChars encrypted_base64.data with
  | none => .error "Base64 decode failed"
  | some ciphertext =>
    match c.dec ciphertext with
    | none => .error "Decryption failed"
    | some plaintext => .ok plaintext

/-- Embedding of `crypto::decrypt_string`: strip the marker when present, else try the
legacy unmarked format directly. -/
def decrypt_string (c : CipherIface) (encrypted : String) : Except String String :=
  if strStartsWith encrypted encMarker then
    decrypt_string_internal c (strDropChars encrypted encMarker.data.length)
  else
    decrypt_string_internal c encrypted

/-- Embedding of `crypto::serialize_password` (the serde write hook), modelled on the
string it emits: marked values pass through, others are encrypted. -/
def serialize_password (c : CipherIface) (password : String) : Except String String :=
  if strStartsWith password encMarker then .ok password
  else encrypt_string c password

/-- Embedding of `crypto::deserialize_password` (the serde read hook), modelled on the
already-deserialized raw string.  Every branch of the source returns `Ok`,
so the model is total: empty input passes through, marked input is
decrypted (falling back to the raw text on failure), unmarked input is
tried as legacy ciphertext (falling back to the raw text on failure). -/
def deserialize_password (c : CipherIface) (raw : String) : String :=
  if raw = "" then raw
  else if strStartsWith raw encMarker then
    match decrypt_string_internal c (strDropChars raw encMarker.data.length) with
    | .ok plaintext => plaintext
    | .error _ => raw
  else
    match decrypt_string_internal c raw with
    | .ok plaintext => plaintext
    | .error _ => raw

/-- A concrete `CipherIface` instance used by witness theorems: each char
becomes three base-256 bytes of its code point.  (It instantiates the
interface of the external AEAD; it is not a model of AES itself.) -/
def demoEncChar (c : Char) : List Nat :=
  [c.toNat / 65536, c.toNat / 256 % 256, c.toNat % 256]

def demoDecChars : List Nat → Option (List Char)
  | [] => some []
  | b1 :: b2 :: b3 :: rest =>
    (demoDecChars rest).map (fun l => Char.ofNat (b1 * 65536 + b2 * 256 + b3) :: l)
  | _ => none

def demoCipher : CipherIface where
  enc s := s.data.flatMap demoEncChar
  dec bs := (demoDecChars bs).map (fun l => ⟨l⟩)
  enc_byte_lt := by
    intro s b hb
    simp only [List.mem_flatMap] at hb
    obtain ⟨c, _, hc⟩ := hb
    have hlt : c.toNat < 1114112 := by
      have h := c.valid
      show c.val.toNat < 1114112
      rcases h with h | h <;> omega
    simp only [demoEncChar, List.mem_cons, List.not_mem_nil, or_false] at hc
    rcases hc with h | h | h <;> omega
  dec_enc := by
    intro s
    have key : ∀ l : List Char, demoDecChars (l.flatMap demoEncChar) = some l := by
      intro l
      induction l with
      | nil => rfl
      | cons c t ih =>
        have harith : c.toNat / 65536 * 65536 + c.toNat / 256 % 256 * 256 + c.toNat % 256
            = c.toNat := by omega
        have hsplit : (c :: t).flatMap demoEncChar
            = c.toNat / 65536 :: c.toNat / 256 % 256 :: c.toNat % 256 :: t.flatMap demoEncChar :=
          rfl
        rw [hsplit]
        show (demoDecChars (t.flatMap demoEncChar)).map
            (fun l => Char.ofNat (c.toNat / 65536 * 65536 + c.toNat / 256 % 256 * 256
              + c.toNat % 256) :: l) = some (c :: t)
        rw [ih, harith, Char.ofNat_toNat]
        rfl
    show ((demoDecChars (s.data.flatMap demoEncChar)).map (fun l => String.mk l)) = some s
    rw [key]
    rfl

/-! ## Selection Engine

`ProxyToken` is declared in `proxy/token_manager.rs`, which is not among
the provided sources; its full field list appears in the provided test file
`proxy/tests/ultra_priority_tests.rs` (function `create_test_token`) and in
spec §3, from which this structure is transcribed.  `account_path`
(a `PathBuf`) is kept as a string. -/

structure ProxyToken where
  account_id : String
  access_token : String
  refresh_token : String
  expires_in : Int
  timestamp : Int
  email : String
  account_path : String
  project_id : Option String
  subscription_tier : Option String
  remaining_quota : Option Int
  protected_models : List String
  health_score : ℚ
  reset_time : Option Int
  validation_blocked : Bool
  validation_blocked_until : Int
  model_quotas : List (String × Int)

/-- Tier classification from `ultra_priority_tests.rs` (the closure
`tier_priority` inside `compare_tokens_for_model`): case-insensitive
substring match against "ultra", "pro", "free" in that order, defaulting
to 3; an absent label is treated as the empty string. -/
def tier_priority (tier : Option String) : Nat :=
  let t := strToLower (tier.getD "")
  if strContainsSub t "ultra" then 0
  else if strContainsSub t "pro" then 1
  else if strContainsSub t "free" then 2
  else 3

/-- The comparator of `ultra_priority_tests.rs` (`compare_tokens_for_model`):
tier priority first, then overall remaining quota descending (the test file
notes it simplifies the production per-model lookup), then health score
descending, else equal. -/
def compare_tokens_for_model (a b : ProxyToken) (_target_model : String) : Ordering :=
  let tier_cmp := cmpOrd (tier_priority a.subscription_tier) (tier_priority b.subscription_tier)
  if tier_cmp ≠ Ordering.eq then tier_cmp
  else
    let quota_a := a.remaining_quota.getD 0
    let quota_b := b.remaining_quota.getD 0
    let quota_cmp := cmpOrd quota_b quota_a
    if quota_cmp ≠ Ordering.eq then quota_cmp
    else
      let health_cmp := cmpOrd b.health_score a.health_score
      if health_cmp ≠ Ordering.eq then health_cmp
      else Ordering.eq

/-- Model of `HashMap::contains_key` on the per-model quota mapping. -/
def hasModelKey (t : ProxyToken) (m : String) : Bool :=
  (t.model_quotas.find? (fun p => p.1 = m)).isSome

/-- The capability filter of `ultra_priority_tests.rs`
(`filter_tokens_by_capability`): retain tokens whose quota map has the
target model as a key. -/
def filter_tokens_by_capability (tokens : List ProxyToken) (target_model : String) :
    List ProxyToken :=
  tokens.filter (fun t => hasModelKey t target_model)

/-- Modelled from the spec: the production selection comparator of
`proxy/token_manager.rs`, which is not under the provided sources (the
provided test file only simulates it and notes that production reads
`model_quotas.get(target)`).  Spec §4.4 step 3 criterion 2: remaining quota
for the target model specifically, falling back to the overall remaining
quota when the per-model figure is absent (the overall figure itself
defaults to 0 when null, as in the test's `unwrap_or(0)`). -/
def model_quota_for (t : ProxyToken) (target : String) : Int :=
  ((t.model_quotas.find? (fun p => p.1 = target)).map (fun p => p.2)).getD
    (t.remaining_quota.getD 0)

/-- Modelled from the spec: the production selection comparator of
`proxy/token_manager.rs` (not under the provided sources).  Spec §4.4
step 3, first non-equal criterion decides: tier priority ascending,
per-model remaining quota descending, health score descending, then a
stable tie-break on the account key (email). -/
def compare_tokens_full (a b : ProxyToken) (target : String) : Ordering :=
  let tier_cmp := cmpOrd (tier_priority a.subscription_tier) (tier_priority b.subscription_tier)
  if tier_cmp ≠ Ordering.eq then tier_cmp
  else
    let quota_cmp := cmpOrd (model_quota_for b target) (model_quota_for a target)
    if quota_cmp ≠ Ordering.eq then quota_cmp
    else
      let health_cmp := cmpOrd b.health_score a.health_score
      if health_cmp ≠ Ordering.eq then health_cmp
      else cmpStr a.email b.email

/-- Modelled from the spec: the production capability filter of
`proxy/token_manager.rs` (not under the provided sources; the provided
test file's `filter_tokens_by_capability` simulates only its first
condition).  Spec §4.4 step 1: retain only records whose per-model quota
mapping contains the target model as a key and whose blocked-until
timestamp is not in the future; `now` is the current time. -/
def select_filter (tokens : List ProxyToken) (target : String) (now : Int) :
    List ProxyToken :=
  tokens.filter (fun t => hasModelKey t target && decide (t.validation_blocked_until ≤ now))

/-- Modelled from the spec: `select(pool, target_model)` of spec §4.4 —
capability filter then stable sort by the ranking comparator. -/
def select_tokens (tokens : List ProxyToken) (target : String) (now : Int) :
    List ProxyToken :=
  (select_filter tokens target now).mergeSort
    (fun a b => compare_tokens_full a b target ≠ Ordering.gt)

/-! ## Legacy Import Resolver (`modules/migration.rs`)

External collaborators (filesystem, serde_json, sqlite key-value store,
OAuth client, the `account` and `models` modules) are modelled as explicit
data / function parameters collected in `ImportEnv`. -/

structure TokenResp where
  access_token : String
  expires_in : Int

structure UserInfo where
  email : String
  name : Option String

/-- Structure `models::TokenData`, transcribed from its construction site in
`migration.rs` (`TokenData::new(access_token, refresh_token, expires_in,
email, project_id, session_id)`); the defining module is not among the
provided sources, so only the six constructor arguments are modelled. -/
structure TokenData where
  access_token : String
  refresh_token : String
  expires_in : Int
  email : Option String
  project_id : Option String
  session_id : Option String

/-- One filesystem entry: a path can exist yet be unreadable as a string. -/
inductive FileEntry where
  | unreadable
  | content (text : String)

/-- The filesystem as seen by the import: an association list from paths
to entries.  Absent path = `exists()` false. -/
structure SysFs where
  entries : List (String × FileEntry)

def SysFs.pathExists (fs : SysFs) (p : String) : Bool :=
  (fs.entries.find? (fun e => e.1 = p)).isSome

def SysFs.readToString (fs : SysFs) (p : String) : Option String :=
  match fs.entries.find? (fun e => e.1 = p) with
  | some (_, FileEntry.content t) => some t
  | _ => none

/-- serde_json `Value`. -/
inductive JValue where
  | null
  | bool (b : Bool)
  | num (n : Int)
  | str (s : String)
  | arr (items : List JValue)
  | obj (fields : List (String × JValue))

/-- Embedding of `Value::get(key)` (object member lookup; `None` on non-objects). -/
def JValue.get (v : JValue) (key : String) : Option JValue :=
  match v with
  | .obj fs => (fs.find? (fun p => p.1 = key)).map (fun p => p.2)
  | _ => none

/-- Embedding of `Value::as_str`. -/
def JValue.asStr : JValue → Option String
  | .str s => some s
  | _ => none

/-- Embedding of `Value::as_object` (returning the field list). -/
def JValue.asObj : JValue → Option (List (String × JValue))
  | .obj fs => some fs
  | _ => none

/-- Embedding of `Value::is_object`. -/
def JValue.isObj : JValue → Bool
  | .obj _ => true
  | _ => false

/-- The import's external environment: home directory, filesystem, JSON
parser, OAuth collaborator, and the pool's `upsert_account` (its module is
not among the provided sources; `α` is the opaque `Account` it returns). -/
structure ImportEnv (α : Type) where
  home : Option String
  fs : SysFs
  parseJson : String → Option JValue
  refresh_access_token : String → Except String TokenResp
  get_user_info : String → Except String UserInfo
  upsert_account : String → Option String → TokenData → Except String α

/-- Embedding of `Path::join` on the string path model. -/
def pathJoin (d f : String) : String := d ++ "/" ++ f

/-- Model of `PathBuf::file_name().unwrap_or_default()`: the last nonempty
`/`-separated component, or the empty string. -/
def splitSlash : List Char → List (List Char)
  | [] => [[]]
  | c :: t =>
    let r := splitSlash t
    if c = '/' then [] :: r
    else
      match r with
      | h :: t2 => (c :: h) :: t2
      | [] => [[c]]

def fileNameOf (p : String) : String :=
  match ((splitSlash p.data).filter (fun s => s ≠ [])).getLast? with
  | some l => ⟨l⟩
  | none => ""

/-- From `migration.rs` lines 84–107: resolve an index entry's backup-file
pointer — the path as given, then its filename under the v1 directory,
then under `backups/`, then under `accounts/`; `none` when nothing
exists. -/
def resolveBackupPath (fs : SysFs) (v1_dir target : String) : Option String :=
  let p1 := if fs.pathExists target then target else pathJoin v1_dir (fileNameOf target)
  let p2 :=
    if fs.pathExists p1 then p1
    else
      let fn := fileNameOf p1
      let try_backups := pathJoin (pathJoin v1_dir "backups") fn
      if fs.pathExists try_backups then try_backups
      else
        let try_accounts := pathJoin (pathJoin v1_dir "accounts") fn
        if fs.pathExists try_accounts then try_accounts else p1
  if fs.pathExists p2 then some p2 else none

/-- From `migration.rs` line 66: best-effort display email from the index entry. -/
def emailPlaceholderOf (info : JValue) : String :=
  ((info.get "email").bind JValue.asStr).getD "Unknown"

/-- From `migration.rs` lines 73–77: the backup-file pointer — `backup_file`
preferred, then `data_file`. -/
def targetFileOf (info : JValue) : Option String :=
  ((info.get "backup_file").bind JValue.asStr).or ((info.get "data_file").bind JValue.asStr)

/-- From `migration.rs` lines 118–141: recover a refresh token from a parsed
backup file — the direct `token.refresh_token` field first, then the
base64 blob under `jetskiStateSync.agentManagerInitState` decoded through
the Binary Field Extractor with the old-format path 6 → 3. -/
def legacyRefreshToken (backup_json : JValue) : Option String :=
  match (backup_json.get "token").bind (fun td => (td.get "refresh_token").bind JValue.asStr) with
  | some rt => some rt
  | none =>
    match (backup_json.get "jetskiStateSync.agentManagerInitState").bind JValue.asStr with
    | none => none
    | some state_b64 =>
      match b64DecodeChars state_b64.data with
      | none => none
      | some blob =>
        match find_field blob 6 with
        | .ok (some oauth_data) =>
          match find_field oauth_data 3 with
          | .ok (some refresh_bytes) => utf8Decode refresh_bytes
          | _ => none
        | _ => none

/-- From `migration.rs` lines 84–174, given a resolved target pointer: resolve
the backup path, read and parse it, recover the refresh token, refresh via
OAuth (falling back to the placeholder email and the sentinel
`"imported_access_token"` with zero lifetime on failure), and upsert;
`none` models every `continue`/logged skip. -/
def importViaTarget {α : Type} (env : ImportEnv α) (v1_dir email_placeholder target : String) :
    Option α :=
  match resolveBackupPath env.fs v1_dir target with
  | none => none
  | some backup_path =>
    match env.fs.readToString backup_path with
    | none => none
    | some backup_content =>
      match env.parseJson backup_content with
      | none => none
      | some backup_json =>
        match legacyRefreshToken backup_json with
        | none => none
        | some refresh_token =>
          let triple :=
            match env.refresh_access_token refresh_token with
            | .ok token_resp =>
              match env.get_user_info token_resp.access_token with
              | .ok user_info => (user_info.email, token_resp.access_token, token_resp.expires_in)
              | .error _ => (email_placeholder, token_resp.access_token, token_resp.expires_in)
            | .error _ => (email_placeholder, "imported_access_token", (0 : Int))
          let token_data : TokenData :=
            ⟨triple.2.1, refresh_token, triple.2.2, some triple.1, none, none⟩
          match env.upsert_account triple.1 none token_data with
          | .ok acc => some acc
          | .error _ => none

/-- From `migration.rs` lines 65–181: one index entry.  Non-object entries
(e.g. a `current_account_id` marker) are skipped, then the backup pointer
is chosen and followed. -/
def processEntry {α : Type} (env : ImportEnv α) (v1_dir : String) (entry : String × JValue) :
    Option α :=
  if entry.2.isObj = false then none
  else
    match targetFileOf entry.2 with
    | none => none
    | some target => importViaTarget env v1_dir (emailPlaceholderOf entry.2) target

/-- From `migration.rs` lines 54–63: the two accepted index shapes — a mapping
nested under an `"accounts"` key (when that key holds an object), else the
top-level mapping itself. -/
def accountsMapOf (fields : List (String × JValue)) : List (String × JValue) :=
  match (fields.find? (fun p => p.1 = "accounts")).map (fun p => p.2) with
  | some av =>
    match av.asObj with
    | some m => m
    | none => fields
  | none => fields

/-- One iteration of the index-filename loop of `migration.rs` lines
28–182; the state is (`found_index`, accumulated imports).  A nonexistent
path leaves the state unchanged; an existing one sets the flag and, when
readable, parseable and an object, appends the per-entry results. -/
def importStep {α : Type} (env : ImportEnv α) (v1_dir : String) (st : Bool × List α)
    (index_filename : String) : Bool × List α :=
  let path := pathJoin v1_dir index_filename
  if env.fs.pathExists path = false then st
  else
    match env.fs.readToString path with
    | none => (true, st.2)
    | some content =>
      match env.parseJson content with
      | none => (true, st.2)
      | some v1_index =>
        match v1_index.asObj with
        | none => (true, st.2)
        | some fields => (true, st.2 ++ (accountsMapOf fields).filterMap (processEntry env v1_dir))

/-- The fixed index-filename priority list of `migration.rs` lines 21–24. -/
def index_files : List String := ["antigravity_accounts.json", "accounts.json"]

/-- From `migration.rs` `import_from_v1`: error when the home directory is
unavailable or when neither index filename exists under
`~/.antigravity-agent`; otherwise the accumulated imports. -/
def import_from_v1 {α : Type} (env : ImportEnv α) : Except String (List α) :=
  match env.home with
  | none => .error "Failed to get home directory"
  | some home =>
    let v1_dir := pathJoin home ".antigravity-agent"
    let result := index_files.foldl (importStep env v1_dir) (false, [])
    if result.1 then .ok result.2 else .error "V1 account data file not found"

/-! ## Refresh-token extraction (`migration.rs` `extract_refresh_token_from_file`)

The sqlite `ItemTable` is modelled as the partial map `conn`; the
path-existence check and connection opening are external I/O preceding the
modelled logic. -/

def newFormatKey : String := "antigravityUnifiedStateSync.oauthToken"

def oldFormatKey : String := "jetskiStateSync.agentManagerInitState"

/-- From `migration.rs` lines 242–320: try the new-format key with field path
Outer 1 → Inner1 2 → Inner2 1 → base64 → OAuthInfo 3; only when that key
is absent, fall back to the old-format key with field path 6 → 3; when
both keys are absent, the distinct both-formats-missing error. -/
def extract_refresh_token_from_file (conn : String → Option String) : Except String String :=
  match conn newFormatKey with
  | some outer_b64 =>
    match b64DecodeChars outer_b64.data with
    | none => .error "Outer Base64 decoding failed"
    | some outer_blob =>
      match find_field outer_blob 1 with
      | .error e => .error ("Parsing Outer Field 1 failed: " ++ e)
      | .ok none => .error "Outer Field 1 not found"
      | .ok (some inner1_blob) =>
        match find_field inner1_blob 2 with
        | .error e => .error ("Parsing Inner1 Field 2 failed: " ++ e)
        | .ok none => .error "Inner1 Field 2 not found"
        | .ok (some inner2_blob) =>
          match find_field inner2_blob 1 with
          | .error e => .error ("Parsing Inner2 Field 1 failed: " ++ e)
          | .ok none => .error "Inner2 Field 1 not found"
          | .ok (some oauth_info_bytes) =>
            match utf8Decode oauth_info_bytes with
            | none => .error "OAuth Info B64 is not UTF-8"
            | some oauth_info_b64 =>
              match b64DecodeChars oauth_info_b64.data with
              | none => .error "Inner Base64 decoding failed"
              | some oauth_info_blob =>
                match find_field oauth_info_blob 3 with
                | .error e => .error ("Parsing OAuthInfo Field 3 failed: " ++ e)
                | .ok none => .error "Refresh Token not found in OAuthInfo (Field 3)"
                | .ok (some refresh_bytes) =>
                  match utf8Decode refresh_bytes with
                  | none => .error "Refresh Token is not UTF-8 encoded"
                  | some rt => .ok rt
  | none =>
    match conn oldFormatKey with
    | none => .error "Login state data not found in either format"
    | some current_data =>
      match b64DecodeChars current_data.data with
      | none => .error "Base64 decoding failed"
      | some blob =>
        match find_field blob 6 with
        | .error e => .error ("Protobuf parsing failed: " ++ e)
        | .ok none => .error "OAuth data not found (Field 6)"
        | .ok (some oauth_data) =>
          match find_field oauth_data 3 with
          | .error e => .error ("OAuth data parsing failed: " ++ e)
          | .ok none => .error "Refresh Token not included in data (Field 3)"
          | .ok (some refresh_bytes) =>
            match utf8Decode refresh_bytes with
            | none => .error "Refresh Token is not UTF-8 encoded"
            | some rt => .ok rt

/-- First-match field lookup as an `Option` (used to phrase the claimed
field paths independently of the error strings). -/
def ffOpt (buf : List Nat) (n : Nat) : Option (List Nat) :=
  match find_field buf n with
  | .ok (some x) => some x
  | _ => none

/-- The new-format field path as the claim states it: base64 decode, then
Outer field 1 → Inner field 2 → Inner2 field 1 → UTF-8 → base64 decode →
field 3 → UTF-8. -/
def newFormatPath (v : String) : Option String :=
  (b64DecodeChars v.data).bind (fun outer =>
    (ffOpt outer 1).bind (fun f1 =>
      (ffOpt f1 2).bind (fun f2 =>
        (ffOpt f2 1).bind (fun f3 =>
          (utf8Decode f3).bind (fun s =>
            (b64DecodeChars s.data).bind (fun blob2 =>
              (ffOpt blob2 3).bind utf8Decode))))))

/-- The old-format field path as the claim states it: base64 decode, then
field 6 → field 3 → UTF-8. -/
def oldFormatPath (v : String) : Option String :=
  (b64DecodeChars v.data).bind (fun blob =>
    (ffOpt blob 6).bind (fun f6 =>
      (ffOpt f6 3).bind utf8Decode))

/-- A trivial import environment for witness theorems. -/
def emptyImportEnv : ImportEnv Nat where
  home := none
  fs := ⟨[]⟩
  parseJson := fun _ => none
  refresh_access_token := fun _ => .error "offline"
  get_user_info := fun _ => .error "offline"
  upsert_account := fun _ _ _ => .error "offline"

/-- Embedding of `create_test_token` from `ultra_priority_tests.rs`: every supported
model is mapped to the given remaining quota (default 100).  The source
sets `timestamp` from the external clock (`now + 3600`); the comparator
and filter never read it, and it is modelled as 3600. -/
def create_test_token (email : String) (tier : Option String) (health_score : ℚ)
    (reset_time : Option Int) (remaining_quota : Option Int)
    (supported_models : List String) : ProxyToken where
  account_id := email
  access_token := "test_token"
  refresh_token := "test_refresh"
  expires_in := 3600
  timestamp := 3600
  email := email
  account_path := "/tmp/test"
  project_id := none
  subscription_tier := tier
  remaining_quota := remaining_quota
  protected_models := []
  health_score := health_score
  reset_time := reset_time
  validation_blocked := false
  validation_blocked_until := 0
  model_quotas := supported_models.map (fun m => (m, remaining_quota.getD 100))

-- THEOREMS

/-! ## Helper lemmas -/

theorem cmpOrd_lt {β : Type} [LinearOrder β] {a b : β} (h : a < b) : cmpOrd a b = Ordering.lt :=
  if_pos h

theorem cmpOrd_gt {β : Type} [LinearOrder β] {a b : β} (h : b < a) : cmpOrd a b = Ordering.gt := by
  unfold cmpOrd
  rw [if_neg (lt_asymm h), if_pos h]

theorem cmpOrd_self {β : Type} [LinearOrder β] (a : β) : cmpOrd a a = Ordering.eq := by
  unfold cmpOrd
  simp

theorem eq_of_cmpOrd_eq {β : Type} [LinearOrder β] {a b : β} (h : cmpOrd a b = Ordering.eq) :
    a = b := by
  unfold cmpOrd at h
  split_ifs at h
  exact le_antisymm (not_lt.mp (by assumption)) (not_lt.mp (by assumption))

theorem eq_of_cmpCharList_eq : ∀ {xs ys : List Char}, cmpCharList xs ys = Ordering.eq → xs = ys
  | [], [], _ => rfl
  | [], _ :: _, h => by simp [cmpCharList] at h
  | _ :: _, [], h => by simp [cmpCharList] at h
  | x :: xs, y :: ys, h => by
    by_cases hxy : x = y
    · subst hxy
      simp only [cmpCharList, if_pos rfl] at h
      rw [eq_of_cmpCharList_eq h]
    · simp only [cmpCharList, if_neg hxy] at h
      split_ifs at h

theorem eq_of_cmpStr_eq {a b : String} (h : cmpStr a b = Ordering.eq) : a = b := by
  cases a with
  | mk da =>
    cases b with
    | mk db =>
      have : da = db := eq_of_cmpCharList_eq h
      rw [this]

theorem decSextet_encSextet {n : Nat} (h : n < 64) : decSextet (encSextet n) = some n := by
  have key : ∀ m : Nat, m < 64 → decSextet (encSextet m) = some m := by decide
  exact key n h

theorem encSextet_ne_pad (n : Nat) : encSextet n ≠ '=' := by
  rcases Nat.lt_or_ge n 64 with h | h
  · have key : ∀ m : Nat, m < 64 → encSextet m ≠ '=' := by decide
    exact key n h
  · have hlen : b64Alphabet.length ≤ n := by
      have h64 : b64Alphabet.length = 64 := rfl
      omega
    simp [encSextet, List.getD, List.getElem?_eq_none hlen]

theorem b64_roundtrip : ∀ bs : List Nat, (∀ b ∈ bs, b < 256) →
    b64DecodeChars (b64EncodeChars bs) = some bs := by
  intro bs
  induction bs using b64EncodeChars.induct with
  | case1 =>
    intro _
    rfl
  | case2 b1 =>
    intro h
    have hb1 : b1 < 256 := h b1 (by simp)
    have hmod : b1 % 4 * 16 % 16 = 0 := by omega
    simp only [b64EncodeChars, b64DecodeChars,
      decSextet_encSextet (show b1 / 4 < 64 by omega),
      decSextet_encSextet (show b1 % 4 * 16 < 64 by omega)]
    simp [hmod]
    omega
  | case3 b1 b2 =>
    intro h
    have hb1 : b1 < 256 := h b1 (by simp)
    have hb2 : b2 < 256 := h b2 (by simp)
    have hmod : b2 % 16 * 4 % 4 = 0 := by omega
    simp only [b64EncodeChars, b64DecodeChars,
      decSextet_encSextet (show b1 / 4 < 64 by omega),
      decSextet_encSextet (show b1 % 4 * 16 + b2 / 16 < 64 by omega),
      decSextet_encSextet (show b2 % 16 * 4 < 64 by omega)]
    simp [encSextet_ne_pad, hmod]
    constructor
    · omega
    · omega
  | case4 b1 b2 b3 rest ih =>
    intro h
    have hb1 : b1 < 256 := h b1 (by simp)
    have hb2 : b2 < 256 := h b2 (by simp)
    have hb3 : b3 < 256 := h b3 (by simp)
    have hrest : ∀ b ∈ rest, b < 256 := by
      intro b hb
      exact h b (by simp [hb])
    simp only [b64EncodeChars, b64DecodeChars,
      decSextet_encSextet (show b1 / 4 < 64 by omega),
      decSextet_encSextet (show b1 % 4 * 16 + b2 / 16 < 64 by omega),
      decSextet_encSextet (show b2 % 16 * 4 + b3 / 64 < 64 by omega),
      decSextet_encSextet (show b3 % 64 < 64 by omega)]
    simp [encSextet_ne_pad, ih hrest]
    refine ⟨by omega, by omega, by omega⟩

/-! ## Claims about the Selection Engine -/

/-- C1: For every pair of records compared by the selection comparator,
tier priority decides first and unconditionally: the priority of a record
is 0 when its lowercased tier label contains "ultra", else 1 when it
contains "pro", else 2 when it contains "free", else 3 (an absent label
gives 3); and whenever two records have differing priorities, the record
with the lower priority number sorts strictly first, regardless of the
requested model and of either record's quota or health values. -/
theorem tier_priority_decides_first :
    (∀ o : Option String,
      (strContainsSub (strToLower (o.getD "")) "ultra" = true → tier_priority o = 0) ∧
      (strContainsSub (strToLower (o.getD "")) "ultra" = false →
        strContainsSub (strToLower (o.getD "")) "pro" = true → tier_priority o = 1) ∧
      (strContainsSub (strToLower (o.getD "")) "ultra" = false →
        strContainsSub (strToLower (o.getD "")) "pro" = false →
        strContainsSub (strToLower (o.getD "")) "free" = true → tier_priority o = 2) ∧
      (strContainsSub (strToLower (o.getD "")) "ultra" = false →
        strContainsSub (strToLower (o.getD "")) "pro" = false →
        strContainsSub (strToLower (o.getD "")) "free" = false → tier_priority o = 3)) ∧
    tier_priority none = 3 ∧
    (∀ a b : ProxyToken, ∀ m : String,
      (tier_priority a.subscription_tier < tier_priority b.subscription_tier →
        compare_tokens_for_model a b m = Ordering.lt) ∧
      (tier_priority b.subscription_tier < tier_priority a.subscription_tier →
        compare_tokens_for_model a b m = Ordering.gt)) := by
  refine ⟨?_, by rfl, ?_⟩
  · intro o
    refine ⟨fun h1 => ?_, fun h1 h2 => ?_, fun h1 h2 h3 => ?_, fun h1 h2 h3 => ?_⟩ <;>
      simp [tier_priority, h1]
    · simp [h2]
    · simp [h2, h3]
    · simp [h2, h3]
  · intro a b m
    constructor
    · intro h
      have hc := cmpOrd_lt h
      simp [compare_tokens_for_model, hc]
    · intro h
      have hc := cmpOrd_gt h
      simp [compare_tokens_for_model, hc]

/-- Witness for C1: the Ultra/low-quota account sorts before the Pro
high-quota account for a model both serve (the scenario of
`test_ultra_priority_for_high_end_models`). -/
theorem tier_priority_decides_first_witness :
    compare_tokens_for_model
      (create_test_token "ultra@test.com" (some "ULTRA") 1 none (some 20)
        ["claude-opus-4-6", "claude-sonnet-4-5"])
      (create_test_token "pro@test.com" (some "PRO") 1 none (some 80)
        ["claude-sonnet-4-5"])
      "claude-sonnet-4-5" = Ordering.lt :=
  (tier_priority_decides_first.2.2
      (create_test_token "ultra@test.com" (some "ULTRA") 1 none (some 20)
        ["claude-opus-4-6", "claude-sonnet-4-5"])
      (create_test_token "pro@test.com" (some "PRO") 1 none (some 80)
        ["claude-sonnet-4-5"])
      "claude-sonnet-4-5").1 (by decide)

/-- C2: For every pool and target model, the selection output contains
exactly the pool records whose per-model quota mapping has the target
model as a key and whose blocked-until timestamp is not in the future; in
particular a record lacking the target model as a key never appears in
the selection output for that model. -/
theorem capability_filter_sound (pool : List ProxyToken) (m : String) (now : Int)
    (t : ProxyToken) :
    t ∈ select_tokens pool m now ↔
      t ∈ pool ∧ hasModelKey t m = true ∧ t.validation_blocked_until ≤ now := by
  unfold select_tokens select_filter
  rw [(List.mergeSort_perm _ _).mem_iff, List.mem_filter]
  simp [and_assoc]

/-- C3: For every pair of records with equal tier priority, the selection
comparator orders by remaining quota for the target model specifically,
descending, falling back to the overall remaining quota when the
per-model figure is absent; and for equal tier and equal quota it orders
by health score descending. -/
theorem equal_tier_orders_by_quota_then_health :
    (∀ t : ProxyToken, ∀ m : String,
      t.model_quotas.find? (fun p => p.1 = m) = none →
      model_quota_for t m = t.remaining_quota.getD 0) ∧
    (∀ a b : ProxyToken, ∀ m : String,
      tier_priority a.subscription_tier = tier_priority b.subscription_tier →
      (model_quota_for b m < model_quota_for a m →
        compare_tokens_full a b m = Ordering.lt) ∧
      (model_quota_for a m < model_quota_for b m →
        compare_tokens_full a b m = Ordering.gt) ∧
      (model_quota_for a m = model_quota_for b m →
        (b.health_score < a.health_score → compare_tokens_full a b m = Ordering.lt) ∧
        (a.health_score < b.health_score → compare_tokens_full a b m = Ordering.gt))) := by
  constructor
  · intro t m h
    simp [model_quota_for, h]
  · intro a b m htier
    refine ⟨fun hq => ?_, fun hq => ?_, fun hq => ⟨fun hh => ?_, fun hh => ?_⟩⟩ <;>
      simp only [compare_tokens_full, htier, cmpOrd_self] <;> simp
    · simp [cmpOrd_lt hq]
    · simp [cmpOrd_gt hq]
    · simp [hq, cmpOrd_self, cmpOrd_lt hh]
    · simp [hq, cmpOrd_self, cmpOrd_gt hh]

/-- Witness for C3: two Ultra accounts serving the same model; the one
with per-model quota 80 sorts before the one with 20
(`test_ultra_accounts_sorted_by_quota`). -/
theorem equal_tier_orders_by_quota_then_health_witness :
    compare_tokens_full
      (create_test_token "ultra_high@test.com" (some "ULTRA") 1 none (some 80)
        ["claude-opus-4-6"])
      (create_test_token "ultra_low@test.com" (some "ULTRA") 1 none (some 20)
        ["claude-opus-4-6"])
      "claude-opus-4-6" = Ordering.lt :=
  ((equal_tier_orders_by_quota_then_health.2
      (create_test_token "ultra_high@test.com" (some "ULTRA") 1 none (some 80)
        ["claude-opus-4-6"])
      (create_test_token "ultra_low@test.com" (some "ULTRA") 1 none (some 20)
        ["claude-opus-4-6"])
      "claude-opus-4-6" (by decide)).1 (by decide))

/-- C4: For records equal on tier priority, target-model quota and health
score, the selection comparator falls through to the account key (email);
and comparator equality forces email equality, so the comparator is a
total order on records with distinct account keys and the selection
output for a fixed pool state is reproducible. -/
theorem tie_break_on_email :
    (∀ a b : ProxyToken, ∀ m : String,
      tier_priority a.subscription_tier = tier_priority b.subscription_tier →
      model_quota_for a m = model_quota_for b m →
      a.health_score = b.health_score →
      compare_tokens_full a b m = cmpStr a.email b.email) ∧
    (∀ a b : ProxyToken, ∀ m : String,
      compare_tokens_full a b m = Ordering.eq → a.email = b.email) := by
  constructor
  · intro a b m htier hq hh
    simp only [compare_tokens_full, htier, hq, hh, cmpOrd_self]
    simp
  · intro a b m h
    simp only [compare_tokens_full] at h
    split_ifs at h with h1 h2 h3
    · exact absurd h h1
    · exact absurd h h2
    · exact absurd h h3
    · exact eq_of_cmpStr_eq h

/-- Witness for C4: two accounts identical except in email; the comparator
reduces to the email comparison. -/
theorem tie_break_on_email_witness :
    compare_tokens_full
      (create_test_token "a@test.com" (some "PRO") 1 none (some 50) ["m1"])
      (create_test_token "b@test.com" (some "PRO") 1 none (some 50) ["m1"])
      "m1" = cmpStr "a@test.com" "b@test.com" :=
  tie_break_on_email.1
    (create_test_token "a@test.com" (some "PRO") 1 none (some 50) ["m1"])
    (create_test_token "b@test.com" (some "PRO") 1 none (some 50) ["m1"])
    "m1" (by decide) (by decide) (by decide)

/-! ## Claims about the Credential Cipher -/

theorem decrypt_internal_of_enc (c : CipherIface) (p : String) :
    decrypt_string_internal c ⟨b64EncodeChars (c.enc p)⟩ = .ok p := by
  have hdec : b64DecodeChars (String.mk (b64EncodeChars (c.enc p))).data = some (c.enc p) :=
    b64_roundtrip (c.enc p) (c.enc_byte_lt p)
  simp [decrypt_string_internal, hdec, c.dec_enc]

/-- C5: For every plaintext string, `encrypt_string` succeeds, its output
starts with the fixed marker "ag_enc_", and `decrypt_string` applied to
that output returns exactly the plaintext; on the read path the empty
string passes through unchanged. -/
theorem encrypt_decrypt_roundtrip :
    (∀ (c : CipherIface) (p : String),
      ∃ ct, encrypt_string c p = .ok ct ∧ strStartsWith ct encMarker = true ∧
        decrypt_string c ct = .ok p) ∧
    (∀ c : CipherIface, deserialize_password c "" = "") := by
  constructor
  · intro c p
    refine ⟨⟨encMarker.data ++ b64EncodeChars (c.enc p)⟩, rfl, ?_, ?_⟩
    · simp [strStartsWith, List.isPrefixOf_iff_prefix]
    · have hpre : strStartsWith ⟨encMarker.data ++ b64EncodeChars (c.enc p)⟩ encMarker
          = true := by
        simp [strStartsWith, List.isPrefixOf_iff_prefix]
      unfold decrypt_string
      rw [if_pos hpre]
      have hdrop :
          strDropChars ⟨encMarker.data ++ b64EncodeChars (c.enc p)⟩ encMarker.data.length
            = ⟨b64EncodeChars (c.enc p)⟩ := by
        simp [strDropChars]
      rw [hdrop]
      exact decrypt_internal_of_enc c p
  · intro c
    rfl

/-- C6: For every input without the versioned marker, decryption attempts
the legacy unmarked format: valid legacy ciphertext yields the original
plaintext, and on failure the read path returns the input itself rather
than an error. -/
theorem legacy_unmarked_fallback (c : CipherIface) (raw : String)
    (hm : strStartsWith raw encMarker = false) :
    decrypt_string c raw = decrypt_string_internal c raw ∧
    (∀ p : String, raw = ⟨b64EncodeChars (c.enc p)⟩ → raw ≠ "" →
      decrypt_string c raw = .ok p ∧ deserialize_password c raw = p) ∧
    (∀ e : String, decrypt_string_internal c raw = .error e →
      deserialize_password c raw = raw) := by
  have hdec : decrypt_string c raw = decrypt_string_internal c raw := by
    unfold decrypt_string
    rw [if_neg (by simp [hm])]
  refine ⟨hdec, ?_, ?_⟩
  · intro p hp hne
    constructor
    · rw [hdec, hp]
      exact decrypt_internal_of_enc c p
    · unfold deserialize_password
      rw [if_neg hne, if_neg (by simp [hm])]
      rw [hp, decrypt_internal_of_enc c p]
  · intro e he
    unfold deserialize_password
    by_cases hraw : raw = ""
    · rw [if_pos hraw]
    · rw [if_neg hraw, if_neg (by simp [hm]), he]

/-- Witness for C6: "AABoAABp" is the legacy (unmarked) encoding of "hi"
under the demo cipher and decrypts back to it; an arbitrary unmarked
plaintext survives the read path unchanged. -/
theorem legacy_unmarked_fallback_witness :
    decrypt_string demoCipher "AABoAABp" = .ok "hi" ∧
    deserialize_password demoCipher "AABoAABp" = "hi" ∧
    deserialize_password demoCipher "not-encrypted" = "not-encrypted" := by
  have h1 := legacy_unmarked_fallback demoCipher "AABoAABp" (by decide)
  have h2 := legacy_unmarked_fallback demoCipher "not-encrypted" (by decide)
  have hb : ("AABoAABp" : String) = ⟨b64EncodeChars (demoCipher.enc "hi")⟩ := by decide
  obtain ⟨hd, hok⟩ := h1.2.1 "hi" hb (by decide)
  exact ⟨hd, hok, h2.2.2 "Base64 decode failed" (by rfl)⟩

/-- C7: The write-side serialization hook emits an already-marked string
unchanged, and serializing an already-serialized value is idempotent. -/
theorem serialize_marked_passthrough (c : CipherIface) (p : String) :
    (strStartsWith p encMarker = true → serialize_password c p = .ok p) ∧
    (∀ q : String, serialize_password c p = .ok q → serialize_password c q = .ok q) := by
  constructor
  · intro h
    unfold serialize_password
    rw [if_pos h]
  · intro q hq
    by_cases h : strStartsWith p encMarker = true
    · unfold serialize_password at hq
      rw [if_pos h] at hq
      obtain rfl := Except.ok.inj hq
      unfold serialize_password
      rw [if_pos h]
    · unfold serialize_password at hq
      rw [if_neg h] at hq
      unfold encrypt_string at hq
      obtain rfl := Except.ok.inj hq
      unfold serialize_password
      rw [if_pos (by simp [strStartsWith, List.isPrefixOf_iff_prefix])]

/-- Witness for C7: a string already carrying the marker passes through
the write hook unchanged. -/
theorem serialize_marked_passthrough_witness :
    serialize_password demoCipher "ag_enc_abc" = .ok "ag_enc_abc" :=
  (serialize_marked_passthrough demoCipher "ag_enc_abc").1 (by decide)

/-! ## Claims about refresh-token extraction -/

/-- C8: Refresh-token extraction attempts the new-format key first and
follows the new-format field path (Outer 1 → Inner 2 → Inner2 1 → base64
→ field 3); only when the new-format key is absent does it fall back to
the old-format key with field path 6 → 3; and when both keys are absent
it fails with the distinct both-formats-missing error.  The last conjunct
states that when the new-format key is present, the old-format key's
value is never consulted. -/
theorem refresh_token_resolution_order (conn : String → Option String) :
    (∀ v, conn newFormatKey = some v → ∀ rt : String,
      (extract_refresh_token_from_file conn = .ok rt ↔ newFormatPath v = some rt)) ∧
    (conn newFormatKey = none → ∀ v, conn oldFormatKey = some v → ∀ rt : String,
      (extract_refresh_token_from_file conn = .ok rt ↔ oldFormatPath v = some rt)) ∧
    (conn newFormatKey = none → conn oldFormatKey = none →
      extract_refresh_token_from_file conn
        = .error "Login state data not found in either format") ∧
    (∀ v, conn newFormatKey = some v →
      extract_refresh_token_from_file conn
        = extract_refresh_token_from_file (fun k => if k = oldFormatKey then none else conn k)) := by
  refine ⟨?_, ?_, ?_, ?_⟩
  · intro v hv rt
    unfold extract_refresh_token_from_file newFormatPath
    rw [hv]
    cases h1 : b64DecodeChars v.data with
    | none => simp [h1]
    | some outer =>
      simp only [h1, Option.some_bind]
      cases h2 : find_field outer 1 with
      | error e => simp [ffOpt, h2]
      | ok o1 =>
        cases o1 with
        | none => simp [ffOpt, h2]
        | some inner1 =>
          simp only [ffOpt, h2, Option.some_bind]
          cases h3 : find_field inner1 2 with
          | error e => simp [ffOpt, h3]
          | ok o2 =>
            cases o2 with
            | none => simp [ffOpt, h3]
            | some inner2 =>
              simp only [h3, Option.some_bind]
              cases h4 : find_field inner2 1 with
              | error e => simp [ffOpt, h4]
              | ok o3 =>
                cases o3 with
                | none => simp [ffOpt, h4]
                | some oauth_bytes =>
                  simp only [h4, Option.some_bind]
                  cases h5 : utf8Decode oauth_bytes with
                  | none => simp [h5]
                  | some oauth_b64 =>
                    simp only [h5, Option.some_bind]
                    cases h6 : b64DecodeChars oauth_b64.data with
                    | none => simp [h6]
                    | some oauth_blob =>
                      simp only [h6, Option.some_bind]
                      cases h7 : find_field oauth_blob 3 with
                      | error e => simp [ffOpt, h7]
                      | ok o4 =>
                        cases o4 with
                        | none => simp [ffOpt, h7]
                        | some refresh_bytes =>
                          simp only [h7, Option.some_bind]
                          cases h8 : utf8Decode refresh_bytes with
                          | none => simp [h8]
                          | some rt2 => simp [h8]
  · intro hnew v hold rt
    unfold extract_refresh_token_from_file oldFormatPath
    rw [hnew, hold]
    cases h1 : b64DecodeChars v.data with
    | none => simp [h1]
    | some blob =>
      simp only [h1, Option.some_bind]
      cases h2 : find_field blob 6 with
      | error e => simp [ffOpt, h2]
      | ok o1 =>
        cases o1 with
        | none => simp [ffOpt, h2]
        | some oauth_data =>
          simp only [ffOpt, h2, Option.some_bind]
          cases h3 : find_field oauth_data 3 with
          | error e => simp [ffOpt, h3]
          | ok o2 =>
            cases o2 with
            | none => simp [ffOpt, h3]
            | some refresh_bytes =>
              simp only [h3, Option.some_bind]
              cases h4 : utf8Decode refresh_bytes with
              | none => simp [h4]
              | some rt2 => simp [h4]
  · intro hnew hold
    unfold extract_refresh_token_from_file
    rw [hnew, hold]
  · intro v hv
    have hne : newFormatKey ≠ oldFormatKey := by decide
    unfold extract_refresh_token_from_file
    simp [hne, hv]

/-- Witness for C8: with both key-value entries absent, extraction fails
with the distinct both-formats-missing error. -/
theorem refresh_token_resolution_order_witness :
    extract_refresh_token_from_file (fun _ => none)
      = .error "Login state data not found in either format" :=
  (refresh_token_resolution_order (fun _ => none)).2.2.1 rfl rfl

/-! ## Claims about the Legacy Import Resolver -/

theorem importStep_fst {α : Type} (env : ImportEnv α) (d : String) (st : Bool × List α)
    (f : String) :
    (importStep env d st f).1 = (st.1 || env.fs.pathExists (pathJoin d f)) := by
  unfold importStep
  by_cases hex : env.fs.pathExists (pathJoin d f) = false
  · rw [if_pos hex, hex]
    simp
  · rw [if_neg hex]
    have hex2 : env.fs.pathExists (pathJoin d f) = true := by
      cases h : env.fs.pathExists (pathJoin d f)
      · exact absurd h hex
      · rfl
    rw [hex2]
    simp only [Bool.or_true]
    split
    · rfl
    · split
      · rfl
      · split
        · rfl
        · rfl

/-- C9: The legacy pool import returns an error exactly when no legacy
index file exists under the known directory/filename combinations (with
an unavailable home directory counting as no discoverable index); in
every other condition the affected accounts are skipped and the import
returns the accumulated imported records. -/
theorem import_fails_only_without_index {α : Type} (env : ImportEnv α) :
    (∃ e, import_from_v1 env = .error e) ↔
      (∀ h, env.home = some h →
        env.fs.pathExists
          (pathJoin (pathJoin h ".antigravity-agent") "antigravity_accounts.json") = false ∧
        env.fs.pathExists
          (pathJoin (pathJoin h ".antigravity-agent") "accounts.json") = false) := by
  cases hh : env.home with
  | none =>
    constructor
    · intro _ h hch
      exact Option.noConfusion hch
    · intro _
      refine ⟨"Failed to get home directory", ?_⟩
      unfold import_from_v1
      rw [hh]
  | some home =>
    unfold import_from_v1 index_files
    rw [hh]
    simp only [List.foldl]
    rw [importStep_fst, importStep_fst]
    simp only [Bool.false_or]
    cases hA : env.fs.pathExists
        (pathJoin (pathJoin home ".antigravity-agent") "antigravity_accounts.json") <;>
      cases hB : env.fs.pathExists
        (pathJoin (pathJoin home ".antigravity-agent") "accounts.json") <;>
      simp [hA, hB]

theorem get_some_isObj (v : JValue) (k : String) (x : JValue) (h : v.get k = some x) :
    v.isObj = true := by
  cases v with
  | obj fields => rfl
  | null => simp [JValue.get] at h
  | bool b => simp [JValue.get] at h
  | num n => simp [JValue.get] at h
  | str s => simp [JValue.get] at h
  | arr items => simp [JValue.get] at h

/-- C10: For every legacy index entry, the backup-file pointer is taken
from the entry's "backup_file" field when it holds a string, and
otherwise from its "data_file" field; an entry carrying neither is
skipped without affecting the import of the remaining entries. -/
theorem backup_pointer_preference {α : Type} (env : ImportEnv α) (d id : String)
    (info : JValue) :
    (∀ s, (info.get "backup_file").bind JValue.asStr = some s →
      processEntry env d (id, info) = importViaTarget env d (emailPlaceholderOf info) s) ∧
    ((info.get "backup_file").bind JValue.asStr = none →
      ∀ s, (info.get "data_file").bind JValue.asStr = some s →
        processEntry env d (id, info) = importViaTarget env d (emailPlaceholderOf info) s) ∧
    (info.isObj = true → targetFileOf info = none →
      processEntry env d (id, info) = none ∧
      ∀ pre post : List (String × JValue),
        (pre ++ (id, info) :: post).filterMap (processEntry env d)
          = (pre ++ post).filterMap (processEntry env d)) := by
  refine ⟨?_, ?_, ?_⟩
  · intro s hs
    have hobj : info.isObj = true := by
      cases hb : info.get "backup_file" with
      | none => simp [hb] at hs
      | some x => exact get_some_isObj info "backup_file" x hb
    unfold processEntry
    simp [hobj, targetFileOf, hs]
  · intro hb s hd
    have hobj : info.isObj = true := by
      cases hd2 : info.get "data_file" with
      | none => simp [hd2] at hd
      | some x => exact get_some_isObj info "data_file" x hd2
    unfold processEntry
    simp [hobj, targetFileOf, hb, hd]
  · intro hobj htf
    have hpe : processEntry env d (id, info) = none := by
      unfold processEntry
      simp [hobj, htf]
    refine ⟨hpe, fun pre post => ?_⟩
    simp [List.filterMap_append, List.filterMap_cons, hpe]

/-- Witness for C10: an entry with a "backup_file" string follows that
pointer; an object entry with neither pointer field is skipped. -/
theorem backup_pointer_preference_witness :
    processEntry emptyImportEnv "d" ("acc1", JValue.obj [("backup_file", JValue.str "b.json")])
      = importViaTarget emptyImportEnv "d" "Unknown" "b.json" ∧
    processEntry emptyImportEnv "d" ("acc2", JValue.obj [("note", JValue.str "x")]) = none :=
  ⟨(backup_pointer_preference emptyImportEnv "d" "acc1"
      (JValue.obj [("backup_file", JValue.str "b.json")])).1 "b.json" (by rfl),
   ((backup_pointer_preference emptyImportEnv "d" "acc2"
      (JValue.obj [("note", JValue.str "x")])).2.2 (by rfl) (by rfl)).1⟩

/-- Witness for C2: an account whose quota map lacks "claude-opus-4-6"
never appears in the selection output for that model. -/
theorem capability_filter_sound_witness :
    create_test_token "pro@test.com" (some "PRO") 1 none (some 100) ["claude-sonnet-3-5"]
      ∉ select_tokens
        [create_test_token "pro@test.com" (some "PRO") 1 none (some 100) ["claude-sonnet-3-5"]]
        "claude-opus-4-6" 0 := by
  intro hmem
  have h := (capability_filter_sound
    [create_test_token "pro@test.com" (some "PRO") 1 none (some 100) ["claude-sonnet-3-5"]]
    "claude-opus-4-6" 0
    (create_test_token "pro@test.com" (some "PRO") 1 none (some 100)
      ["claude-sonnet-3-5"])).mp hmem
  exact absurd h.2.1 (by decide)

/-- Witness for C5: the round trip instantiated at the demo cipher. -/
theorem encrypt_decrypt_roundtrip_witness :
    (∃ ct, encrypt_string demoCipher "my_secret_password" = .ok ct ∧
      strStartsWith ct encMarker = true ∧
      decrypt_string demoCipher ct = .ok "my_secret_password") ∧
    deserialize_password demoCipher "" = "" :=
  ⟨encrypt_decrypt_roundtrip.1 demoCipher "my_secret_password",
   encrypt_decrypt_roundtrip.2 demoCipher⟩

/-- Witness for C9: with no home directory (hence no discoverable index),
the import fails. -/
theorem import_fails_only_without_index_witness :
    ∃ e, import_from_v1 emptyImportEnv = .error e :=
  (import_fails_only_without_index emptyImportEnv).mpr
    (fun _ hch => Option.noConfusion hch)
